import Mathlib

/-!
# Stay Ledger — Telegram ingestion path, shallow embedding

A shallow embedding of the Telegram-bot ingestion core of `src/app.py`:
the pure command parser (`parse_telegram_transaction`), the per-message
handler (`handle_telegram_message`), one iteration of the polling loop
(`telegram_poll_loop`), and the guarded poller start
(`start_telegram_poller`).

Modelling conventions:
* Python `float` amounts are modelled by `PyFloat`: an exact rational, an
  infinity, or NaN, with the IEEE comparison semantics (every comparison
  against NaN is false).  `float(...)` applied to a whitespace-free token
  is modelled by `pyFloat?`, covering signs, `inf`/`infinity`/`nan`
  (case-insensitively), decimal digits with optional fractional part and
  exponent, and PEP-515 underscores.  Finite values are kept as exact
  rationals: the final rounding to binary64 (with its overflow to
  infinity) is not modelled, and the concrete amounts the claims touch
  (32.5, 100) are exactly representable in binary64.
* Python string primitives (`strip`, `lower`, `split`, `join`, slicing)
  are modelled by structurally recursive functions over the character
  list of the string (`pyStrip`, `pyLower`, `splitWhitespace`, `joinWith`,
  `pyDropOne`), so that every definition evaluates by kernel reduction.
* The SQLite `app_config` table is modelled as an association list of
  string key/value pairs with upsert semantics (`set_config`).
* Side effects of the handler (sending a Telegram message, inserting a
  transaction row) are modelled as appends to an explicit `EngineState`;
  `send_telegram_message` swallows transport errors in the source, so the
  model records the attempted send.
* `date.today().isoformat()` is modelled by an explicit `today` argument.
-/

namespace StayLedger

/-- The fixed closed category set `ALLOWED_CATEGORIES` (14 values). -/
def ALLOWED_CATEGORIES : List String :=
  ["餐饮", "交通", "购物", "住房", "水电燃气", "通讯", "医疗",
   "教育", "娱乐", "旅行", "工资", "奖金", "理财收益", "其他"]

/-- Transaction type: the `type` column accepts exactly `income`/`expense`. -/
inductive TxType where
  | income
  | expense
deriving DecidableEq, Repr

/-- A Python `float` value as far as this program can observe it: an exact
rational (binary64 rounding not modelled), an infinity, or NaN. -/
inductive PyFloat where
  | finite (q : ℚ)
  | inf
  | neginf
  | nan
deriving DecidableEq, Repr

instance instOfNatPyFloat (n : Nat) : OfNat PyFloat n :=
  ⟨.finite (OfNat.ofNat n)⟩

instance instOfScientificPyFloat : OfScientific PyFloat :=
  ⟨fun m b e => .finite (OfScientific.ofScientific m b e)⟩

/-- Python `<` on floats: IEEE semantics, any comparison with NaN is
false. -/
def PyFloat.lt : PyFloat → PyFloat → Bool
  | .finite a, .finite b => a < b
  | .finite _, .inf => true
  | .neginf, .finite _ => true
  | .neginf, .inf => true
  | _, _ => false

/-- Python `<=` on floats: IEEE semantics, any comparison with NaN is
false. -/
def PyFloat.le : PyFloat → PyFloat → Bool
  | .finite a, .finite b => a ≤ b
  | .finite _, .inf => true
  | .neginf, .finite _ => true
  | .neginf, .inf => true
  | .neginf, .neginf => true
  | .inf, .inf => true
  | _, _ => false

/-- A transaction as produced by the Telegram parser. -/
structure TgTransaction where
  type : TxType
  amount : PyFloat
  category : String
  note : String
  happened_on : String
deriving DecidableEq, Repr

/-- Result of `parse_telegram_transaction`: the Python function returns
`("help", "")`, `(None, err)` or `(dict, "")`. -/
inductive ParseResult where
  | help
  | err (msg : String)
  | tx (t : TgTransaction)
deriving DecidableEq, Repr

/-! ## Python string primitives over character lists -/

/-- Python `str.strip()`: drop leading and trailing whitespace. -/
def pyStrip (s : String) : String :=
  ⟨((s.toList.dropWhile Char.isWhitespace).reverse.dropWhile Char.isWhitespace).reverse⟩

/-- Python `str.lower()` on the ASCII letters (the only characters the
source lower-cases that are affected). -/
def pyLower (s : String) : String :=
  ⟨s.toList.map Char.toLower⟩

/-- Python `s.startswith(c)` for a single character `c`. -/
def pyStartsWith (s : String) (c : Char) : Bool :=
  match s.toList with
  | c2 :: _ => c2 == c
  | [] => false

/-- Python `s[1:]`: drop the first character. -/
def pyDropOne (s : String) : String :=
  ⟨s.toList.drop 1⟩

/-- Helper for `splitWhitespace`: `acc` holds the current token reversed. -/
def splitWsAux : List Char → List Char → List String
  | [], acc => if acc = [] then [] else [⟨acc.reverse⟩]
  | c :: cs, acc =>
    if c.isWhitespace then
      if acc = [] then splitWsAux cs []
      else String.mk acc.reverse :: splitWsAux cs []
    else splitWsAux cs (c :: acc)

/-- Python `str.split()` with no arguments: split on whitespace runs,
dropping empty tokens. -/
def splitWhitespace (s : String) : List String :=
  splitWsAux s.toList []

/-- Python `sep.join(tokens)`. -/
def joinWith (sep : String) : List String → String
  | [] => ""
  | [t] => t
  | t :: ts => t ++ sep ++ joinWith sep ts

/-! ## The command parser -/

/-- Numeric value of a decimal digit character. -/
def digitVal (c : Char) : Nat := c.toNat - 48

/-- Value of a list of decimal digit characters, most significant first. -/
def digitsVal (cs : List Char) : Nat :=
  cs.foldl (fun acc c => acc * 10 + digitVal c) 0

/-- Split a character list at the first occurrence of `sep`; `none` when
`sep` is absent. -/
def splitOnce (sep : Char) : List Char → Option (List Char × List Char)
  | [] => none
  | c :: rest =>
    if c == sep then some ([], rest)
    else (splitOnce sep rest).map (fun p => (c :: p.1, p.2))

/-- Tail of a PEP-515 digit run: digits with single underscores strictly
between digits.  Returns the digits with underscores removed. -/
def parseUDigitsTail : List Char → Option (List Char)
  | [] => some []
  | '_' :: c :: rest =>
    if c.isDigit then (parseUDigitsTail rest).map (fun ds => c :: ds) else none
  | ['_'] => none
  | c :: rest =>
    if c.isDigit then (parseUDigitsTail rest).map (fun ds => c :: ds) else none

/-- A nonempty PEP-515 digit run: starts and ends with a digit, single
underscores only between digits.  Returns the digits. -/
def parseUDigits (cs : List Char) : Option (List Char) :=
  match cs with
  | [] => none
  | c :: rest =>
    if c.isDigit then (parseUDigitsTail rest).map (fun ds => c :: ds) else none

/-- A possibly-empty PEP-515 digit run (for the integer and fractional
parts, either of which Python allows to be absent). -/
def parseUDigitsOrEmpty (cs : List Char) : Option (List Char) :=
  match cs with
  | [] => some []
  | _ => parseUDigits cs

/-- Python `float(tok)` on a whitespace-free token: optional `+`/`-` sign,
then (case-insensitively) `inf`/`infinity`, `nan`, or a decimal number —
ASCII digits with an optional single `.`, at least one digit overall, an
optional `e`/`E` exponent, and PEP-515 underscores strictly between
digits.  Finite values are exact rationals; the rounding of the decimal
value to binary64 (and its overflow to infinity) is not modelled. -/
def pyFloat? (s : String) : Option PyFloat :=
  let cs := s.toList.map Char.toLower
  let signBody : Bool × List Char :=
    match cs with
    | '-' :: rest => (true, rest)
    | '+' :: rest => (false, rest)
    | _ => (false, cs)
  let neg := signBody.1
  let body := signBody.2
  if body = "inf".toList ∨ body = "infinity".toList then
    some (if neg then .neginf else .inf)
  else if body = "nan".toList then some .nan
  else
    let mantExp : List Char × Option (List Char) :=
      match splitOnce 'e' body with
      | some p => (p.1, some p.2)
      | none => (body, none)
    let intFrac : List Char × List Char :=
      match splitOnce '.' mantExp.1 with
      | some p => (p.1, p.2)
      | none => (mantExp.1, [])
    match parseUDigitsOrEmpty intFrac.1, parseUDigitsOrEmpty intFrac.2 with
    | some intDs, some fracDs =>
      if intDs.isEmpty ∧ fracDs.isEmpty then none
      else
        let expVal? : Option Int :=
          match mantExp.2 with
          | none => some 0
          | some ecs =>
            let esign : Bool × List Char :=
              match ecs with
              | '-' :: r => (true, r)
              | '+' :: r => (false, r)
              | _ => (false, ecs)
            match parseUDigits esign.2 with
            | some eds =>
              some (if esign.1 then -(digitsVal eds : Int) else (digitsVal eds : Int))
            | none => none
        match expVal? with
        | none => none
        | some e =>
          let num : Nat := digitsVal intDs * 10 ^ fracDs.length + digitsVal fracDs
          let pnum : Int := (num : Int) * 10 ^ e.toNat
          let den : Nat := 10 ^ fracDs.length * 10 ^ (-e).toNat
          some (.finite (mkRat (if neg then -pnum else pnum) den))
    | _, _ => none

/-- The command-token → transaction-type table `type_map` from
`parse_telegram_transaction`. -/
def type_map (cmd : String) : Option TxType :=
  if cmd = "expense" then some .expense
  else if cmd = "income" then some .income
  else if cmd = "add_expense" then some .expense
  else if cmd = "add_income" then some .income
  else if cmd = "支出" then some .expense
  else if cmd = "收入" then some .income
  else none

/-- The positional tail of `parse_telegram_transaction`: given the resolved
transaction type and the token list (the command token at index 0, callers
guarantee at least 3 tokens), parse `parts[1]` as the amount, check
`parts[2]` against `ALLOWED_CATEGORIES`, and rejoin `parts[3:]` as the
note.  Mirrors lines 476–494 of `src/app.py`. -/
def parse_positional (today : String) (ty : TxType) (parts : List String) : ParseResult :=
  match pyFloat? (parts.getD 1 "") with
  | none => .err "金额必须是数字。"
  | some amount =>
    if PyFloat.lt amount 0 then .err "金额不能小于 0。"
    else
      let category := parts.getD 2 ""
      if category ∈ ALLOWED_CATEGORIES then
        let note :=
          if parts.length > 3 then pyStrip (joinWith " " (parts.drop 3)) else ""
        .tx ⟨ty, amount, category, note, today⟩
      else
        .err ("分类无效。可用分类：" ++ joinWith ", " ALLOWED_CATEGORIES)

/-- `parse_telegram_transaction` after stripping the optional leading `/`
and tokenizing: command dispatch, `help`/`start`, the minimum-token check,
the `add` rewrite, and the `type_map` lookup (lines 448–494). -/
def parse_from_parts (today : String) (parts : List String) : ParseResult :=
  match parts with
  | [] => .err "消息为空，请发送记账命令。"
  | p0 :: _ =>
    let cmd := pyLower p0
    if cmd = "help" ∨ cmd = "start" then .help
    else if parts.length < 3 then .err "格式错误。示例：/expense 32.5 餐饮 午饭"
    else if cmd = "add" then
      if parts.length < 4 then .err "格式错误。示例：/add 支出 32.5 餐饮 午饭"
      else
        let parts2 := parts.drop 1
        match type_map (pyLower (parts2.getD 0 "")) with
        | none => .err "不支持的命令。请使用 /expense 或 /income。"
        | some ty => parse_positional today ty parts2
    else
      match type_map cmd with
      | none => .err "不支持的命令。请使用 /expense 或 /income。"
      | some ty => parse_positional today ty parts

/-- `parse_telegram_transaction(text)` (lines 439–494), with the clock
`date.today().isoformat()` passed as `today`. -/
def parse_telegram_transaction (today : String) (text : String) : ParseResult :=
  let line := pyStrip text
  if line = "" then .err "消息为空，请发送记账命令。"
  else
    let normalized := if pyStartsWith line '/' then pyDropOne line else line
    parse_from_parts today (splitWhitespace normalized)

/-! ## Config store and engine state -/

/-- `get_config(key, default)`: lookup in the `app_config` key/value table,
caller-supplied default when absent. -/
def get_config (cfg : List (String × String)) (key dflt : String) : String :=
  match cfg.find? (fun kv => kv.1 == key) with
  | some kv => kv.2
  | none => dflt

/-- `set_config(key, value)`: upsert by key into `app_config` (the SQL
`INSERT ... ON CONFLICT(key) DO UPDATE`; keys are unique in the table, so
replacing the first occurrence models the conflict update). -/
def set_config : List (String × String) → String → String → List (String × String)
  | [], key, value => [(key, value)]
  | kv :: tl, key, value =>
    if kv.1 == key then (key, value) :: tl else kv :: set_config tl key value

/-- An incoming Telegram message: `message.get("text", "")` and
`message.get("chat", {}).get("id")`. -/
structure TgMessage where
  text : String
  chat_id : Option Int
deriving DecidableEq, Repr

/-- One entry of the `getUpdates` result array: `update.get("update_id")`
(present and an `int` when `some`) and `update.get("message")` (present and
truthy when `some`). -/
structure TgUpdate where
  update_id : Option Int
  message : Option TgMessage
deriving DecidableEq, Repr

/-- The decoded JSON body of a `getUpdates` response. -/
structure FetchResponse where
  ok : Bool
  result : List TgUpdate
deriving DecidableEq, Repr

/-- Observable state of the ingestion engine: the `app_config` table, the
`transactions` rows inserted so far, and the sends attempted so far
(chat id paired with message text). -/
structure EngineState where
  config : List (String × String)
  transactions : List TgTransaction
  sent : List (Int × String)
deriving DecidableEq, Repr

/-- `send_telegram_message(token, chat_id, text)`: a best-effort send,
recorded as an attempted send. -/
def send_telegram_message (st : EngineState) (chat_id : Int) (text : String) : EngineState :=
  { st with sent := st.sent ++ [(chat_id, text)] }

/-- `add_transaction_record(...)`: append a row to `transactions`. -/
def add_transaction_record (st : EngineState) (t : TgTransaction) : EngineState :=
  { st with transactions := st.transactions ++ [t] }

/-- The static help text sent on a `help` parse result. -/
def helpText : String :=
  "记账命令:\n/expense 金额 分类 备注\n/income 金额 分类 备注\n示例: /expense 32.5 餐饮 午饭"

/-- The localized type label used in the confirmation text. -/
def tx_type_label (ty : TxType) : String :=
  match ty with
  | .income => "收入"
  | .expense => "支出"

/-- Python `f"{amount:.2f}"`: render the amount with exactly two decimal
places (rounding to cents, half away from zero on the nonnegative amounts
the success path produces; `nan`/`inf` render as Python prints them). -/
def formatAmount2 : PyFloat → String
  | .finite q =>
    let centsNum : Nat := q.num.natAbs * 100
    let cents : Nat := (2 * centsNum + q.den) / (2 * q.den)
    let sign := if q.num < 0 then "-" else ""
    let frac := cents % 100
    let fracStr := (if frac < 10 then "0" else "") ++ toString frac
    sign ++ toString (cents / 100) ++ "." ++ fracStr
  | .inf => "inf"
  | .neginf => "-inf"
  | .nan => "nan"

/-- The confirmation text `f"已记账: {tx_text} ¥{amount:.2f} / {category}"`. -/
def confirmText (t : TgTransaction) : String :=
  "已记账: " ++ tx_type_label t.type ++ " ¥" ++ formatAmount2 t.amount ++ " / " ++ t.category

/-- The tail of `handle_telegram_message` after the authorization gate
(lines 535–559): dispatch on the parse result, recording the insert and
the reply. -/
def handle_parsed (today : String) (st : EngineState) (chat_id : Int) (text : String) :
    EngineState :=
  match parse_telegram_transaction today text with
  | .help => send_telegram_message st chat_id helpText
  | .err e => send_telegram_message st chat_id e
  | .tx t => send_telegram_message (add_transaction_record st t) chat_id (confirmText t)

/-- `handle_telegram_message(token, message)` (lines 514–559): missing chat
id → silent return; `/myid`/`myid` → id reply before the allow-list check;
allow-list check against `telegram_allowed_chat_id`; then parse dispatch. -/
def handle_telegram_message (today : String) (st : EngineState) (message : TgMessage) :
    EngineState :=
  match message.chat_id with
  | none => st
  | some chat_id =>
    let normalized_text := pyLower (pyStrip message.text)
    if normalized_text = "/myid" ∨ normalized_text = "myid" then
      send_telegram_message st chat_id ("当前 chat id: " ++ toString chat_id)
    else
      let allowed_chat_id := pyStrip (get_config st.config "telegram_allowed_chat_id" "")
      if allowed_chat_id ≠ "" ∧ toString chat_id ≠ allowed_chat_id then
        send_telegram_message st chat_id
          ("未授权聊天。当前 chat id: " ++ toString chat_id ++ "，请在系统配置中绑定后再试。")
      else
        handle_parsed today st chat_id message.text

/-- The allow-list condition of lines 526–527, as a predicate: allowed when
the stripped configured id is empty or equals `str(chat_id)` exactly. -/
def chat_allowed (allowed_chat_id : String) (chat_id : Int) : Bool :=
  allowed_chat_id == "" || toString chat_id == allowed_chat_id

/-- The per-update body of the polling loop (lines 601–607): persist the
update id as the cursor when it is an `int`, then handle the embedded
message when present. -/
def process_update (today : String) (st : EngineState) (update : TgUpdate) : EngineState :=
  let st1 :=
    match update.update_id with
    | some update_id =>
      { st with config := set_config st.config "telegram_last_update_id" (toString update_id) }
    | none => st
  match update.message with
  | some m => handle_telegram_message today st1 m
  | none => st1

/-- The state change of one polling iteration applied to a decoded fetch
response (lines 597–607): a non-`ok` response changes nothing; an `ok`
response folds `process_update` over the result array in order. -/
def telegram_iteration (today : String) (st : EngineState) (data : FetchResponse) : EngineState :=
  if data.ok then (data.result).foldl (process_update today) st else st

/-! ## Guarded poller start -/

/-- State of the module-level poller globals: the registered
`telegram_thread` handle, the handles of poll-loop threads currently
running, and a fresh-handle counter.  The poll loop never returns, so a
spawned thread stays alive. -/
structure PollerState where
  telegram_thread : Option Nat
  alive : List Nat
  next : Nat
deriving DecidableEq, Repr

/-- The poller globals at module load: `telegram_thread = None`. -/
def initial_poller_state : PollerState := ⟨none, [], 0⟩

/-- `start_telegram_poller()` (lines 610–616) under `telegram_lock`:
return if a registered thread is alive, else spawn a fresh thread and
register it. -/
def start_telegram_poller (s : PollerState) : PollerState :=
  match s.telegram_thread with
  | some t =>
    if s.alive.contains t then s
    else ⟨some s.next, s.next :: s.alive, s.next + 1⟩
  | none => ⟨some s.next, s.next :: s.alive, s.next + 1⟩

/-! ## Helper lemmas -/

theorem get_set_config_same (cfg : List (String × String)) (k v d : String) :
    get_config (set_config cfg k v) k d = v := by
  induction cfg with
  | nil => simp [get_config, set_config]
  | cons a tl ih =>
    cases h : (a.1 == k) with
    | true => simp [set_config, h, get_config, List.find?]
    | false =>
      simp only [set_config, h, Bool.false_eq_true, if_false]
      simpa [get_config, List.find?, h] using ih

theorem handle_parsed_config (today : String) (st : EngineState) (cid : Int) (text : String) :
    (handle_parsed today st cid text).config = st.config := by
  unfold handle_parsed
  cases parse_telegram_transaction today text <;> rfl

theorem handle_config (today : String) (st : EngineState) (m : TgMessage) :
    (handle_telegram_message today st m).config = st.config := by
  unfold handle_telegram_message
  cases m.chat_id with
  | none => rfl
  | some cid =>
    dsimp only
    split
    · rfl
    · split
      · rfl
      · exact handle_parsed_config today st cid m.text

theorem process_update_config (today : String) (st : EngineState) (u : TgUpdate) (uid : Int)
    (h : u.update_id = some uid) :
    (process_update today st u).config =
      set_config st.config "telegram_last_update_id" (toString uid) := by
  unfold process_update
  rw [h]
  cases hm : u.message with
  | none => rfl
  | some m =>
    simp only [hm]
    exact handle_config today _ m

theorem chain_lt_le_getLast :
    ∀ (ids : List Int), ids.Chain' (· < ·) →
      ∀ (h : ids ≠ []) (i : Int), i ∈ ids → i ≤ ids.getLast h
  | [], _, h => absurd rfl h
  | [a], _, _ => by
    intro i hi
    simp only [List.mem_singleton] at hi
    simp [hi]
  | a :: b :: tl, hch, h => by
    intro i hi
    have h2 : b :: tl ≠ [] := by simp
    rw [List.getLast_cons h2]
    rcases List.mem_cons.mp hi with rfl | hi2
    · have hab : i < b := (List.chain'_cons.mp hch).1
      have hb := chain_lt_le_getLast (b :: tl) (List.chain'_cons.mp hch).2 h2 b (by simp)
      omega
    · exact chain_lt_le_getLast (b :: tl) (List.chain'_cons.mp hch).2 h2 i hi2

theorem foldl_cursor (today : String) :
    ∀ (us : List TgUpdate) (ids : List Int) (st : EngineState),
      us.map (fun u => u.update_id) = ids.map some →
      ∀ (h : ids ≠ []),
      get_config (List.foldl (process_update today) st us).config "telegram_last_update_id" "0" =
        toString (ids.getLast h) := by
  intro us
  induction us with
  | nil =>
    intro ids st hm h
    cases ids with
    | nil => exact absurd rfl h
    | cons x xs => simp at hm
  | cons u tl ih =>
    intro ids st hm h
    cases ids with
    | nil => simp at hm
    | cons uid ids2 =>
      simp only [List.map_cons, List.cons.injEq] at hm
      obtain ⟨hu, htl⟩ := hm
      rw [List.foldl_cons]
      cases tl with
      | nil =>
        have hids2 : ids2 = [] := by
          cases ids2 with
          | nil => rfl
          | cons y ys => simp at htl
        subst hids2
        simp only [List.foldl_nil]
        rw [process_update_config today st u uid hu, get_set_config_same]
        simp
      | cons u2 tl2 =>
        have hne2 : ids2 ≠ [] := by
          cases ids2 with
          | nil => simp at htl
          | cons y ys => simp
        rw [List.getLast_cons hne2]
        exact ih ids2 (process_update today st u) htl hne2

/-! ## Claim theorems -/

/-- C2: if the fetch response has `ok = false`, the iteration commits no
state change — the whole engine state, in particular the persisted cursor
`telegram_last_update_id` and the transaction store, is unchanged. -/
theorem C2_not_ok_no_state_change (today : String) (st : EngineState) (result : List TgUpdate) :
    telegram_iteration today st ⟨false, result⟩ = st ∧
    get_config (telegram_iteration today st ⟨false, result⟩).config
        "telegram_last_update_id" "0" =
      get_config st.config "telegram_last_update_id" "0" ∧
    (telegram_iteration today st ⟨false, result⟩).transactions = st.transactions :=
  ⟨rfl, rfl, rfl⟩

/-- C10: a message whose chat object carries no id makes the handler return
immediately: the state is unchanged, so no reply is sent and no transaction
is written, whatever the message text is. -/
theorem C10_missing_chat_id_silent (today : String) (st : EngineState) (text : String) :
    handle_telegram_message today st ⟨text, none⟩ = st ∧
    (handle_telegram_message today st ⟨text, none⟩).sent = st.sent ∧
    (handle_telegram_message today st ⟨text, none⟩).transactions = st.transactions :=
  ⟨rfl, rfl, rfl⟩

/-- Invariant of the poller globals: at most one loop thread is running,
and any running thread is the registered one. -/
def poller_inv (s : PollerState) : Prop :=
  s.alive.length ≤ 1 ∧ ∀ t ∈ s.alive, s.telegram_thread = some t

theorem poller_inv_initial : poller_inv initial_poller_state := by
  constructor
  · simp [initial_poller_state]
  · intro t ht
    simp [initial_poller_state] at ht

theorem poller_inv_start (s : PollerState) (h : poller_inv s) :
    poller_inv (start_telegram_poller s) := by
  obtain ⟨hlen, hreg⟩ := h
  unfold start_telegram_poller
  cases hth : s.telegram_thread with
  | none =>
    have halive : s.alive = [] := by
      cases ha : s.alive with
      | nil => rfl
      | cons x xs =>
        have := hreg x (by simp [ha])
        rw [hth] at this
        exact absurd this (by simp)
    constructor
    · simp [halive]
    · intro t ht
      simp only [halive] at ht
      simp only [List.mem_singleton] at ht
      simp [ht]
  | some t0 =>
    cases hc : s.alive.contains t0 with
    | true =>
      simp only [hc, if_true]
      exact ⟨hlen, hreg⟩
    | false =>
      simp only [hc, Bool.false_eq_true, if_false]
      have halive : s.alive = [] := by
        cases ha : s.alive with
        | nil => rfl
        | cons x xs =>
          have hx := hreg x (by simp [ha])
          rw [hth] at hx
          have : x = t0 := by injection hx.symm
          subst this
          have : s.alive.contains x = true := by
            simp [ha, List.contains_cons]
          rw [this] at hc
          exact absurd hc (by simp)
      constructor
      · simp [halive]
      · intro t ht
        simp only [halive] at ht
        simp only [List.mem_singleton] at ht
        simp [ht]

/-- C9: the guarded start is idempotent — after any number of invocations
of `start_telegram_poller` from the module-load state, at most one polling
loop thread is running; two starts in immediate succession leave exactly
one running loop. -/
theorem C9_guarded_start_at_most_one_loop :
    (∀ n : Nat,
      ((start_telegram_poller)^[n] initial_poller_state).alive.length ≤ 1) ∧
    (start_telegram_poller (start_telegram_poller initial_poller_state)).alive.length = 1 := by
  constructor
  · intro n
    have h : poller_inv ((start_telegram_poller)^[n] initial_poller_state) := by
      induction n with
      | zero => exact poller_inv_initial
      | succ k ih =>
        rw [Function.iterate_succ_apply']
        exact poller_inv_start _ ih
    exact h.1
  · rfl

/-- C3: a message whose trimmed, lower-cased text is `/myid` or `myid`
gets a reply containing the numeric chat id before the allow-list check
runs — for every engine state (hence every configured allowed chat id) the
only effect is that reply, and no transaction is recorded. -/
theorem C3_myid_bypasses_allow_list (today : String) (st : EngineState) (m : TgMessage)
    (cid : Int) (hid : m.chat_id = some cid)
    (hmyid : pyLower (pyStrip m.text) = "/myid" ∨ pyLower (pyStrip m.text) = "myid") :
    handle_telegram_message today st m =
      { st with sent := st.sent ++ [(cid, "当前 chat id: " ++ toString cid)] } ∧
    (handle_telegram_message today st m).transactions = st.transactions ∧
    ∃ pre post : String,
      "当前 chat id: " ++ toString cid = pre ++ toString cid ++ post := by
  have hmain : handle_telegram_message today st m =
      { st with sent := st.sent ++ [(cid, "当前 chat id: " ++ toString cid)] } := by
    unfold handle_telegram_message
    rw [hid]
    simp only [hmyid, if_pos]
    rfl
  refine ⟨hmain, by rw [hmain], "当前 chat id: ", "", by simp⟩

/-- C3 witness: a concrete `/MyID` message (mixed case, padded) to a chat
excluded by the configured allow list still gets the id reply and writes
no transaction. -/
theorem C3_myid_bypasses_allow_list_witness :
    handle_telegram_message "2026-10-12"
        ⟨[("telegram_allowed_chat_id", "456")], [], []⟩ ⟨"  /MyID  ", some 123⟩ =
      ⟨[("telegram_allowed_chat_id", "456")], [], [(123, "当前 chat id: " ++ toString (123 : Int))]⟩ :=
  (C3_myid_bypasses_allow_list "2026-10-12"
    ⟨[("telegram_allowed_chat_id", "456")], [], []⟩ ⟨"  /MyID  ", some 123⟩ 123
    rfl (by decide)).1

/-- C4: for a non-`/myid` message, the chat is allowed exactly when the
configured allowed chat id (stripped) is empty or equals `str(chat_id)`;
when allowed the handler proceeds to the parse dispatch, and on denial the
only effect is a reply containing the denying chat's id — no transaction
is recorded. -/
theorem C4_allow_list_gate (today : String) (st : EngineState) (m : TgMessage) (cid : Int)
    (hid : m.chat_id = some cid)
    (hnotmyid : ¬(pyLower (pyStrip m.text) = "/myid" ∨ pyLower (pyStrip m.text) = "myid")) :
    (chat_allowed (pyStrip (get_config st.config "telegram_allowed_chat_id" "")) cid = true ↔
      (pyStrip (get_config st.config "telegram_allowed_chat_id" "") = "" ∨
        toString cid = pyStrip (get_config st.config "telegram_allowed_chat_id" ""))) ∧
    (chat_allowed (pyStrip (get_config st.config "telegram_allowed_chat_id" "")) cid = true →
      handle_telegram_message today st m = handle_parsed today st cid m.text) ∧
    (chat_allowed (pyStrip (get_config st.config "telegram_allowed_chat_id" "")) cid = false →
      handle_telegram_message today st m =
        { st with sent := st.sent ++
            [(cid, "未授权聊天。当前 chat id: " ++ toString cid ++ "，请在系统配置中绑定后再试。")] } ∧
      (handle_telegram_message today st m).transactions = st.transactions ∧
      ∃ pre post : String,
        "未授权聊天。当前 chat id: " ++ toString cid ++ "，请在系统配置中绑定后再试。" =
          pre ++ toString cid ++ post) := by
  refine ⟨?_, ?_, ?_⟩
  · unfold chat_allowed
    constructor
    · intro h
      rcases Bool.or_eq_true_iff.mp h with h1 | h1
      · exact Or.inl (by simpa using h1)
      · exact Or.inr (by simpa using h1)
    · intro h
      rcases h with h1 | h1
      · exact Bool.or_eq_true_iff.mpr (Or.inl (by simpa using h1))
      · exact Bool.or_eq_true_iff.mpr (Or.inr (by simpa using h1))
  · intro hallow
    have hcond : ¬(pyStrip (get_config st.config "telegram_allowed_chat_id" "") ≠ "" ∧
        toString cid ≠ pyStrip (get_config st.config "telegram_allowed_chat_id" "")) := by
      unfold chat_allowed at hallow
      rcases Bool.or_eq_true_iff.mp hallow with h1 | h1
      · intro hc
        exact hc.1 (by simpa using h1)
      · intro hc
        exact hc.2 (by simpa using h1)
    unfold handle_telegram_message
    rw [hid]
    dsimp only
    rw [if_neg hnotmyid, if_neg hcond]
  · intro hdeny
    have hcond : pyStrip (get_config st.config "telegram_allowed_chat_id" "") ≠ "" ∧
        toString cid ≠ pyStrip (get_config st.config "telegram_allowed_chat_id" "") := by
      unfold chat_allowed at hdeny
      constructor
      · intro hc
        rw [Bool.or_eq_false_iff] at hdeny
        exact absurd (by simpa using hdeny.1) (by simp [hc])
      · intro hc
        rw [Bool.or_eq_false_iff] at hdeny
        exact absurd (by simpa using hdeny.2) (by simp [hc])
    have hmain : handle_telegram_message today st m =
        { st with sent := st.sent ++
            [(cid, "未授权聊天。当前 chat id: " ++ toString cid ++ "，请在系统配置中绑定后再试。")] } := by
      unfold handle_telegram_message
      rw [hid]
      dsimp only
      rw [if_neg hnotmyid, if_pos hcond]
      rfl
    exact ⟨hmain, by rw [hmain], "未授权聊天。当前 chat id: ",
      "，请在系统配置中绑定后再试。", by simp⟩

/-- C4 witness: with allowed chat id "456" configured, chat 123 sending
"hi" is denied — the reply carries id 123 and no transaction is written. -/
theorem C4_allow_list_gate_witness :
    handle_telegram_message "2026-10-12"
        ⟨[("telegram_allowed_chat_id", "456")], [], []⟩ ⟨"hi", some 123⟩ =
      ⟨[("telegram_allowed_chat_id", "456")], [],
        [(123, "未授权聊天。当前 chat id: " ++ toString (123 : Int) ++ "，请在系统配置中绑定后再试。")]⟩ :=
  ((C4_allow_list_gate "2026-10-12"
      ⟨[("telegram_allowed_chat_id", "456")], [], []⟩ ⟨"hi", some 123⟩ 123
      rfl (by decide)).2.2 (by decide)).1

/-- C1: for an `ok` batch whose updates carry strictly increasing integer
update ids, each update's id is persisted as the cursor
(`telegram_last_update_id`) before its embedded message is handled, and
after processing the whole batch the persisted cursor equals the maximum
update id of the batch — for every starting state, hence however many of
the batch's messages fail to parse or are denied. -/
theorem C1_cursor_tracks_batch_max (today : String) (us : List TgUpdate) (ids : List Int)
    (st : EngineState)
    (hids : us.map (fun u => u.update_id) = ids.map some)
    (hinc : ids.Chain' (· < ·))
    (hne : us ≠ []) :
    (∀ (st' : EngineState) (u : TgUpdate) (uid : Int) (m : TgMessage),
        u.update_id = some uid → u.message = some m →
        process_update today st' u =
          handle_telegram_message today
            { st' with
                config := set_config st'.config "telegram_last_update_id" (toString uid) } m) ∧
    ∃ hne2 : ids ≠ [],
      get_config (telegram_iteration today st ⟨true, us⟩).config "telegram_last_update_id" "0" =
        toString (ids.getLast hne2) ∧
      ids.getLast hne2 ∈ ids ∧
      ∀ i ∈ ids, i ≤ ids.getLast hne2 := by
  have hne2 : ids ≠ [] := by
    intro hids0
    subst hids0
    simp only [List.map_nil, List.map_eq_nil_iff] at hids
    exact hne hids
  refine ⟨?_, hne2, ?_, List.getLast_mem hne2, chain_lt_le_getLast ids hinc hne2⟩
  · intro st' u uid m hu hm
    unfold process_update
    rw [hu]
    simp only [hm]
  · show get_config ((us.foldl (process_update today) st)).config "telegram_last_update_id" "0" =
      toString (ids.getLast hne2)
    exact foldl_cursor today us ids st hids hne2

/-- C1 witness: a concrete two-update batch with ids 5 < 9 where the first
update's message fails to parse; the persisted cursor ends at "9". -/
theorem C1_cursor_tracks_batch_max_witness :
    get_config (telegram_iteration "2026-10-12" ⟨[], [], []⟩
        ⟨true, [⟨some 5, some ⟨"hi", some 1⟩⟩, ⟨some 9, none⟩]⟩).config
      "telegram_last_update_id" "0" = toString (9 : Int) := by
  obtain ⟨-, hne2, hcur, -, -⟩ := C1_cursor_tracks_batch_max "2026-10-12"
    [⟨some 5, some ⟨"hi", some 1⟩⟩, ⟨some 9, none⟩] [5, 9] ⟨[], [], []⟩
    (by decide) (List.chain'_pair.mpr (by decide)) (by decide)
  rw [hcur]
  rfl

/-- C5: parsing "/expense 32.5 餐饮 午饭" succeeds with type expense,
amount 32.5, category 餐饮, note 午饭 and `happened_on` stamped with the
current date; and in general every successful positional parse rejoins the
tokens after the category with single spaces as the note. -/
theorem C5_expense_example (today : String) :
    parse_telegram_transaction today "/expense 32.5 餐饮 午饭" =
      .tx ⟨.expense, 32.5, "餐饮", "午饭", today⟩ ∧
    ∀ (ty : TxType) (parts : List String) (t : TgTransaction),
      parse_positional today ty parts = .tx t →
      t.note = pyStrip (joinWith " " (parts.drop 3)) := by
  constructor
  · rw [show (32.5 : PyFloat) = .finite (mkRat 65 2) from
      congrArg PyFloat.finite (by rw [Rat.mkRat_eq_div]; norm_num)]
    rfl
  · intro ty parts t h
    unfold parse_positional at h
    cases hd : pyFloat? (parts.getD 1 "") with
    | none => rw [hd] at h; exact absurd h (by simp)
    | some amount =>
      rw [hd] at h
      dsimp only at h
      split at h
      · exact absurd h (by simp)
      · split at h
        · simp only [ParseResult.tx.injEq] at h
          subst h
          by_cases hl : parts.length > 3
          · simp only [if_pos hl]
          · simp only [if_neg hl]
            have hdrop : parts.drop 3 = [] := List.drop_eq_nil_of_le (by omega)
            rw [hdrop]
            rfl
        · exact absurd h (by simp)

/-- C5 witness: the concrete expense example, and a positional parse with a
two-token note rejoined with a single space. -/
theorem C5_expense_example_witness :
    parse_telegram_transaction "2026-10-12" "/expense 32.5 餐饮 午饭" =
      .tx ⟨.expense, 32.5, "餐饮", "午饭", "2026-10-12"⟩ ∧
    (⟨.expense, .finite (mkRat 65 2), "餐饮", "午饭 加蛋", "2026-10-12"⟩ : TgTransaction).note =
      pyStrip (joinWith " " ((["expense", "32.5", "餐饮", "午饭", "加蛋"] : List String).drop 3)) :=
  ⟨(C5_expense_example "2026-10-12").1,
    (C5_expense_example "2026-10-12").2 .expense ["expense", "32.5", "餐饮", "午饭", "加蛋"]
      ⟨.expense, .finite (mkRat 65 2), "餐饮", "午饭 加蛋", "2026-10-12"⟩ (by decide)⟩

/-- C6 counterexample: "/foo" has a first token that is not help/start/add
and is absent from the type table, yet the parser returns the too-few-tokens
format error, not the unsupported-command error the claim requires. -/
theorem C6_counterexample :
    (pyLower "foo" ≠ "help" ∧ pyLower "foo" ≠ "start" ∧ pyLower "foo" ≠ "add" ∧
      type_map (pyLower "foo") = none) ∧
    splitWhitespace (pyDropOne (pyStrip "/foo")) = ["foo"] ∧
    parse_telegram_transaction "2026-10-12" "/foo" =
      .err "格式错误。示例：/expense 32.5 餐饮 午饭" ∧
    parse_telegram_transaction "2026-10-12" "/foo" ≠
      .err "不支持的命令。请使用 /expense 或 /income。" := by decide

/-- C6 (amended): for every input that tokenizes (after stripping and
dropping an optional leading `/`) to at least three tokens and whose first
token, lower-cased, is not help/start/add and not in the type table, the
parser returns the unsupported-command error.  The original claim fails for
unrecognized commands with fewer than three tokens, which hit the
format-error check first. -/
theorem C6_amended_unsupported_command (today text : String) (p0 : String) (rest : List String)
    (hsplit : splitWhitespace
        (if pyStartsWith (pyStrip text) '/' then pyDropOne (pyStrip text) else pyStrip text) =
      p0 :: rest)
    (hlen : 2 ≤ rest.length)
    (h1 : pyLower p0 ≠ "help") (h2 : pyLower p0 ≠ "start") (h3 : pyLower p0 ≠ "add")
    (h4 : type_map (pyLower p0) = none) :
    parse_telegram_transaction today text = .err "不支持的命令。请使用 /expense 或 /income。" := by
  unfold parse_telegram_transaction
  dsimp only
  by_cases hline : pyStrip text = ""
  · exfalso
    rw [hline] at hsplit
    have hnil : splitWhitespace
        (if pyStartsWith "" '/' then pyDropOne "" else "") = [] := by decide
    rw [hnil] at hsplit
    exact List.noConfusion hsplit
  · rw [if_neg hline, hsplit]
    unfold parse_from_parts
    dsimp only
    rw [if_neg (not_or.mpr ⟨h1, h2⟩)]
    have hl3 : ¬((p0 :: rest).length < 3) := by
      simp only [List.length_cons]
      omega
    rw [if_neg hl3, if_neg h3, h4]

/-- C6 witness for the amended claim: "/foo a b" yields the
unsupported-command error. -/
theorem C6_amended_unsupported_command_witness :
    parse_telegram_transaction "2026-10-12" "/foo a b" =
      .err "不支持的命令。请使用 /expense 或 /income。" :=
  C6_amended_unsupported_command "2026-10-12" "/foo a b" "foo" ["a", "b"]
    (by decide) (by decide) (by decide) (by decide) (by decide) (by decide)

/-- C7: "/add 收入 100 工资" succeeds with type income, amount 100,
category 工资 and empty note — the add keyword is dropped and the secondary
token translated through the type table — and any add command with fewer
than four tokens yields a ParseError carrying a usage example. -/
theorem C7_add_command (today : String) :
    parse_telegram_transaction today "/add 收入 100 工资" =
      .tx ⟨.income, 100, "工资", "", today⟩ ∧
    ∀ (p0 : String) (rest : List String),
      pyLower p0 = "add" → (p0 :: rest).length < 4 →
      parse_from_parts today (p0 :: rest) = .err "格式错误。示例：/expense 32.5 餐饮 午饭" ∨
      parse_from_parts today (p0 :: rest) = .err "格式错误。示例：/add 支出 32.5 餐饮 午饭" := by
  constructor
  · rw [show (100 : PyFloat) = .finite (mkRat 100 1) from
      congrArg PyFloat.finite (by rw [Rat.mkRat_eq_div]; norm_num)]
    rfl
  · intro p0 rest hadd hlen
    unfold parse_from_parts
    dsimp only
    have hnh : ¬(pyLower p0 = "help" ∨ pyLower p0 = "start") := by
      rw [hadd]
      decide
    rw [if_neg hnh]
    by_cases h3 : (p0 :: rest).length < 3
    · rw [if_pos h3]
      exact Or.inl rfl
    · rw [if_neg h3, if_pos hadd, if_pos hlen]
      exact Or.inr rfl

/-- C7 witness: the concrete add example, and "/add 支出 32.5" (three
tokens) yielding a usage-example error. -/
theorem C7_add_command_witness :
    parse_telegram_transaction "2026-10-12" "/add 收入 100 工资" =
      .tx ⟨.income, 100, "工资", "", "2026-10-12"⟩ ∧
    (parse_from_parts "2026-10-12" ["add", "支出", "32.5"] =
        .err "格式错误。示例：/expense 32.5 餐饮 午饭" ∨
      parse_from_parts "2026-10-12" ["add", "支出", "32.5"] =
        .err "格式错误。示例：/add 支出 32.5 餐饮 午饭") :=
  ⟨(C7_add_command "2026-10-12").1,
    (C7_add_command "2026-10-12").2 "add" ["支出", "32.5"] (by decide) (by decide)⟩

theorem parse_positional_success (today : String) (ty : TxType) (parts : List String)
    (t : TgTransaction) (h : parse_positional today ty parts = .tx t) :
    PyFloat.lt t.amount 0 = false ∧ t.category ∈ ALLOWED_CATEGORIES ∧
    t.happened_on = today := by
  unfold parse_positional at h
  cases hd : pyFloat? (parts.getD 1 "") with
  | none => rw [hd] at h; exact absurd h (by simp)
  | some amount =>
    rw [hd] at h
    dsimp only at h
    split at h
    · exact absurd h (by simp)
    · rename_i hneg
      split at h
      · rename_i hcat
        simp only [ParseResult.tx.injEq] at h
        subst h
        have hlt : PyFloat.lt amount 0 = false := by
          cases hb : PyFloat.lt amount 0
          · rfl
          · exact absurd hb hneg
        exact ⟨hlt, hcat, rfl⟩
      · exact absurd h (by simp)

theorem parse_from_parts_success (today : String) (parts : List String) (t : TgTransaction)
    (h : parse_from_parts today parts = .tx t) :
    PyFloat.lt t.amount 0 = false ∧ t.category ∈ ALLOWED_CATEGORIES ∧
    t.happened_on = today := by
  unfold parse_from_parts at h
  cases parts with
  | nil => exact absurd h (by simp)
  | cons p0 rest =>
    dsimp only at h
    split at h
    · exact absurd h (by simp)
    · split at h
      · exact absurd h (by simp)
      · split at h
        · split at h
          · exact absurd h (by simp)
          · split at h
            · exact absurd h (by simp)
            · exact parse_positional_success today _ _ t h
        · split at h
          · exact absurd h (by simp)
          · exact parse_positional_success today _ _ t h

/-- Every successful parse satisfies the guards the code actually checks:
the amount never compares less than zero (which, for the NaN amounts
Python's `float("nan")` admits, is weaker than `amount ≥ 0`), the category
lies in the fixed set, and `happened_on` is the injected current date. -/
theorem parse_success_guards (today text : String) (t : TgTransaction)
    (h : parse_telegram_transaction today text = .tx t) :
    PyFloat.lt t.amount 0 = false ∧ t.category ∈ ALLOWED_CATEGORIES ∧
    t.happened_on = today := by
  unfold parse_telegram_transaction at h
  dsimp only at h
  split at h
  · exact absurd h (by simp)
  · exact parse_from_parts_success today _ t h

/-- C8: failing input for the claimed amount invariant.  Python's
`float("nan")` succeeds and the `amount < 0` guard passes because every
NaN comparison is false, so `/expense nan 餐饮` parses to a transaction
with `amount = nan`, for which `amount ≥ 0` is false — contradicting the
code's own schema assertion `CHECK(amount >= 0)` on the `transactions`
table that the insert then violates. -/
theorem C8_nan_failing_input :
    parse_telegram_transaction "2026-10-12" "/expense nan 餐饮" =
      .tx ⟨.expense, .nan, "餐饮", "", "2026-10-12"⟩ ∧
    PyFloat.le 0 .nan = false ∧
    PyFloat.lt PyFloat.nan 0 = false := by decide

end StayLedger
